import Mathlib

/-!
Verification of the super-scraper validation pipeline against its
natural-language specification.

The definitions below are a shallow embedding of the Python sources:
`validator.py` (heuristic classifier), `response_collector.py` (response
normalization), `validation_manager.py` (orchestrator and simple cache),
`validation_performance.py` (advanced cache, serialization/compression),
and `validation_error_handling.py` (error classification).

Modelling conventions:
- Python floats are modelled as rationals (the scores involved are exact
  small fractions, so ordering comparisons agree with the source).
- Python dict values appearing in records are modelled by `PyVal`;
  dictionaries are association lists in insertion order.
- External-library behaviour (BeautifulSoup text extraction, `re.search`
  for the bot-signature regex tables, `urlparse`, `pandas.read_csv`) is
  a parameter of the embedding (`Oracle`), so theorems quantify over it.
- Exceptions raised by collaborators are explicit fault parameters; the
  embedded orchestrator is a total function of these, mirroring the
  source's catch-all handlers.
-/

/-- Values that a scraped-record field can hold (the subset of Python
values the validator distinguishes: `None`, strings, ints, floats, bools). -/
inductive PyVal where
  | none
  | str (s : String)
  | int (n : Int)
  | float (q : ℚ)
  | bool (b : Bool)
deriving DecidableEq

/-- Python truthiness for `PyVal` (`if item.get(field)` style tests). -/
def pyTruthy : PyVal → Bool
  | .none => false
  | .str s => s ≠ ""
  | .int n => n ≠ 0
  | .float q => q ≠ 0
  | .bool b => b

/-- Python `str()` applied to a `PyVal`.  (For floats the source only uses
the rendering in placeholder-membership tests and substring checks, where
any numeric rendering behaves the same; we use the rational's rendering.) -/
def pyStr : PyVal → String
  | .none => "None"
  | .str s => s
  | .int n => toString n
  | .float q => toString q
  | .bool b => if b then "True" else "False"

/-- Python `type(v).__name__` for the values `PyVal` covers. -/
def pyTypeName : PyVal → String
  | .none => "NoneType"
  | .str _ => "str"
  | .int _ => "int"
  | .float _ => "float"
  | .bool _ => "bool"

/-- One scraped item: a string-keyed mapping in insertion order
(`ExtractedRecord` of the spec). -/
abbrev ExtractedRecord := List (String × PyVal)

/-- Python `item.get(key)`: the first binding of `key`, if any. -/
def recordGet (item : ExtractedRecord) (key : String) : Option PyVal :=
  match item with
  | [] => Option.none
  | (k, v) :: rest => if k = key then some v else recordGet rest key

/-- Whether the character list `n` occurs at the front of `h`. -/
def charStarts : List Char → List Char → Bool
  | [], _ => true
  | _ :: _, [] => false
  | a :: as, b :: bs => a == b && charStarts as bs

/-- Whether the character list `n` occurs anywhere inside `h`
(Python `n in h` on strings). -/
def charHas (n : List Char) : List Char → Bool
  | [] => charStarts n []
  | c :: rest => charStarts n (c :: rest) || charHas n rest

/-- Python `needle in hay` substring test on strings. -/
def strHas (hay needle : String) : Bool :=
  charHas needle.toList hay.toList

/-- ASCII lower-casing over the character list (the kernel-reducible
counterpart of `str.lower()`; the claims involve only ASCII text). -/
def strLower (s : String) : String := String.mk (s.toList.map Char.toLower)

/-- Python `str.strip()`: drop whitespace from both ends. -/
def strTrim (s : String) : String :=
  String.mk (((s.toList.dropWhile Char.isWhitespace).reverse.dropWhile
    Char.isWhitespace).reverse)

/-- Python `str.startswith`. -/
def strStarts (s pre : String) : Bool := charStarts pre.toList s.toList

/-- String length via the character list. -/
def strLen (s : String) : Nat := s.toList.length

/-- The first `n` characters of a string. -/
def strTake (s : String) (n : Nat) : String := String.mk (s.toList.take n)

/-- Regex word characters (`\w`): alphanumerics and underscore. -/
def isWordChar (c : Char) : Bool := c.isAlphanum || c == '_'

/-- Word-character test on an optional character; absent counts as
non-word (string edge). -/
def wChar : Option Char → Bool
  | some c => isWordChar c
  | Option.none => false

/-- Search for `needle` in `hay` requiring a regex word boundary (`\b`)
on both sides, carrying the character preceding the current position.
Models `re.search(r'\b' + re.escape(ind) + r'\b', text)`. -/
def wbSearchFrom (needle : List Char) (prev : Option Char) (hay : List Char) : Bool :=
  (charStarts needle hay
    && (wChar prev != wChar needle.head?)
    && (wChar (hay.drop needle.length).head? != wChar needle.getLast?))
  || (match hay with
      | [] => false
      | c :: rest => wbSearchFrom needle (some c) rest)

/-- Word-boundary search of an indicator phrase inside a text. -/
def wbSearch (needle text : String) : Bool :=
  wbSearchFrom needle.toList Option.none text.toList

/-- Types of blocking detected (`BlockType` in `validator.py`). -/
inductive BlockType where
  | none
  | http_error
  | captcha
  | login_required
  | access_denied
  | rate_limited
  | geographic_block
deriving DecidableEq

/-- Known bot detection systems (`BotDetectionSystem` in `validator.py`). -/
inductive BotDetectionSystem where
  | none
  | cloudflare
  | akamai
  | perimeterx
  | incapsula
  | distil
  | datadome
  | fastly
  | custom
deriving DecidableEq

/-- Per-field completeness entry of the data statistics. -/
structure FieldStat where
  completeness : ℚ
  count : Nat
deriving DecidableEq

/-- The `stats` dictionary built by `_validate_data_quality`; keys that a
given path never assigns stay `none` (dict key absent). -/
structure DataStats where
  total_items : Option Nat := Option.none
  field_completeness : Option (List (String × FieldStat)) := Option.none
  quality_factors : Option (List (String × ℚ)) := Option.none
deriving DecidableEq

/-- Values stored in a verdict's metadata dictionary. -/
inductive MetaValue where
  | b (x : Bool)
  | q (x : ℚ)
  | s (x : String)
  | strs (x : List String)
  | bt (x : BlockType)
  | stats (x : DataStats)
  | osv (x : Option String)
deriving DecidableEq

/-- Metadata dictionary in insertion order. -/
abbrev Metadata := List (String × MetaValue)

/-- Dictionary lookup on metadata. -/
def metaLookup (k : String) : Metadata → Option MetaValue
  | [] => Option.none
  | (k2, v) :: rest => if k2 = k then some v else metaLookup k rest

/-- Dictionary assignment `m[k] = v`: replaces an existing binding in
place, otherwise appends. -/
def metaSet (m : Metadata) (k : String) (v : MetaValue) : Metadata :=
  match m with
  | [] => [(k, v)]
  | (k2, v2) :: rest =>
    if k2 = k then (k2, v) :: rest else (k2, v2) :: metaSet rest k v

/-- The verdict produced per task (`ValidationResult` in `validator.py`). -/
structure ValidationResult where
  is_successful : Bool
  is_blocked : Bool
  bot_detection_system : Option BotDetectionSystem
  confidence_score : ℚ
  issues : List String := []
  warnings : List String := []
  metadata : Metadata := []
deriving DecidableEq

/-- Canonical response record handed to the classifier: the dictionary
built by `ResponseCollector._create_base_response_data` and filled in by
the per-engine collectors.  (Engine-specific extras added only on success
paths, such as `scrapy_meta`, are not needed by any claim and are
omitted; every failure-path output consists of exactly these keys.) -/
structure ResponseData where
  url : String
  status_code : Int
  headers : List (String × String)
  content : String
  response_time : ℚ
  timestamp : ℚ
  collector_type : String
deriving DecidableEq

/-- Behaviour of the external libraries the classifier calls, supplied as
a parameter of the embedding: BeautifulSoup parsing/text extraction,
`re.search` over the bot-signature regex tables, `urlparse(...).netloc`,
and `pandas.read_csv`. -/
structure Oracle where
  parseOk : String → Bool
  getText : String → String
  titleText : String → Option String
  reSearch : String → String → Bool
  urlNetloc : String → Option String
  csvLoad : String → Except String (List ExtractedRecord)

/-- A fixed trivial oracle used to instantiate witnesses. -/
def oracle0 : Oracle where
  parseOk := fun _ => true
  getText := fun s => s
  titleText := fun _ => Option.none
  reSearch := fun _ _ => false
  urlNetloc := fun _ => Option.none
  csvLoad := fun _ => .error "no csv support"

/-- Validator thresholds loaded by `_load_config` (defaults shown). -/
structure ValidatorConfig where
  min_data_quality_score : ℚ := 7/10
  min_required_fields : List String := ["title"]
  max_placeholder_ratio : ℚ := 3/10

/-- The default configuration (config file absent). -/
def default_config : ValidatorConfig := {}

/-- Accumulator of `_analyze_blocking`. -/
structure BlockAnalysis where
  is_blocked : Bool := false
  block_type : BlockType := .none
  issues : List String := []
  confidence : ℚ := 0
deriving DecidableEq

/-- The fixed HTTP-status blocking table of `_analyze_blocking`:
issue text, block type, confidence. -/
def blocking_status_codes (code : Int) : Option (String × BlockType × ℚ) :=
  if code = 403 then some ("Access forbidden", BlockType.access_denied, 9/10)
  else if code = 429 then some ("Rate limited", BlockType.rate_limited, 19/20)
  else if code = 503 then some ("Service unavailable - possible blocking", BlockType.http_error, 4/5)
  else if code = 401 then some ("Authentication required", BlockType.login_required, 9/10)
  else if code = 451 then some ("Unavailable for legal reasons", BlockType.geographic_block, 9/10)
  else Option.none

/-- Category word-lists returned by `_load_blocking_indicators`. -/
def blocking_indicators : List (String × List String) :=
  [ ("captcha_indicators",
      ["captcha", "recaptcha", "hcaptcha", "prove you are human",
       "verify you are not a robot", "security check"])
  , ("login_indicators",
      ["please log in", "sign in required", "authentication required",
       "please sign in", "login to continue"])
  , ("access_denied_indicators",
      ["access denied", "forbidden", "not authorized", "permission denied",
       "you do not have permission", "access restricted"])
  , ("rate_limit_indicators",
      ["rate limit", "too many requests", "request limit exceeded",
       "temporarily unavailable", "try again later"]) ]

/-- `_get_block_type_from_category`. -/
def block_type_from_category (category : String) : BlockType :=
  if category == "captcha_indicators" then .captcha
  else if category == "login_indicators" then .login_required
  else if category == "access_denied_indicators" then .access_denied
  else if category == "rate_limit_indicators" then .rate_limited
  else .http_error

/-- Content scan of `_analyze_blocking` when BeautifulSoup parsing worked:
per category, the first indicator with a word-boundary hit in the page
text or page title records a blocking issue (the scan then moves to the
next category). -/
def scan_categories_wb (page_text page_title : String) (a : BlockAnalysis) : BlockAnalysis :=
  blocking_indicators.foldl (fun acc cat =>
    match cat.2.find? (fun ind => wbSearch ind page_text || wbSearch ind page_title) with
    | some ind =>
      { acc with is_blocked := true
               , block_type := block_type_from_category cat.1
               , issues := acc.issues ++ ["Content blocking detected: \"" ++ ind ++ "\""]
               , confidence := max acc.confidence (17/20) }
    | Option.none => acc) a

/-- Fallback content scan of `_analyze_blocking` when BeautifulSoup parsing
raised: plain substring search against the lower-cased raw content. -/
def scan_categories_basic (content_lower : String) (a : BlockAnalysis) : BlockAnalysis :=
  blocking_indicators.foldl (fun acc cat =>
    match cat.2.find? (fun ind => strHas content_lower ind) with
    | some ind =>
      { acc with is_blocked := true
               , block_type := block_type_from_category cat.1
               , issues := acc.issues ++ ["Basic blocking pattern detected: \"" ++ ind ++ "\""]
               , confidence := max acc.confidence (7/10) }
    | Option.none => acc) a

/-- URL regex patterns of `_analyze_blocking`, each an alternation of
literal path segments (matched case-insensitively as substrings). -/
def blocking_url_patterns : List (List String) :=
  [ ["/login", "/signin", "/auth"]
  , ["/blocked", "/banned", "/denied"]
  , ["/captcha", "/challenge"]
  , ["/error", "/403", "/404"] ]

/-- Suspicious-header table of `_analyze_blocking`: header name, message,
confidence.  These add issues and confidence but do not set `is_blocked`. -/
def suspicious_headers : List (String × String × ℚ) :=
  [ ("cf-ray", "Cloudflare detected", 3/5)
  , ("x-blocked-by", "Explicit blocking header", 9/10)
  , ("x-access-denied", "Access denied header", 9/10) ]

/-- Embeds `ScrapingValidator._analyze_blocking`: status table first (a
match returns immediately), then content scan, URL pattern scan and
suspicious-header scan accumulating issues and max confidence. -/
def analyze_blocking (o : Oracle) (rd : ResponseData) : BlockAnalysis :=
  match blocking_status_codes rd.status_code with
  | some x =>
    { is_blocked := true
    , block_type := x.2.1
    , issues := ["HTTP " ++ toString rd.status_code ++ ": " ++ x.1]
    , confidence := x.2.2 }
  | Option.none =>
    let a0 : BlockAnalysis := {}
    let a1 :=
      if rd.content ≠ "" then
        if o.parseOk rd.content then
          scan_categories_wb (strLower (o.getText rd.content))
            (strLower ((o.titleText rd.content).getD "")) a0
        else
          scan_categories_basic (strLower rd.content) a0
      else a0
    let a2 := blocking_url_patterns.foldl (fun acc pats =>
      if pats.any (fun p => strHas (strLower rd.url) p) then
        { acc with is_blocked := true
                 , issues := acc.issues ++ ["Redirected to blocking page: " ++ rd.url]
                 , confidence := max acc.confidence (7/10) }
      else acc) a1
    suspicious_headers.foldl (fun acc sh =>
      if (rd.headers.map (fun kv => strLower kv.1)).contains sh.1 then
        { acc with issues := acc.issues ++ [sh.2.1]
                 , confidence := max acc.confidence sh.2.2 }
      else acc) a2

/-- Accumulator of `_detect_bot_system`. -/
structure BotDetection where
  system : BotDetectionSystem := .none
  confidence : ℚ := 0
  indicators : List String := []
deriving DecidableEq

/-- Header-name signature table of `_load_bot_signatures` (regex pattern,
confidence per system). -/
def bot_header_signatures : List (BotDetectionSystem × List (String × ℚ)) :=
  [ (.cloudflare, [("cf-ray", 9/10), ("cf-cache-status", 4/5), ("cf-request-id", 4/5),
                   ("server.*cloudflare", 9/10)])
  , (.akamai, [("akamai", 9/10), ("x-akamai", 9/10), ("ak-", 7/10)])
  , (.perimeterx, [("x-px", 9/10), ("perimeterx", 9/10)])
  , (.incapsula, [("x-iinfo", 9/10), ("incap_ses", 9/10), ("incapsula", 4/5)])
  , (.distil, [("x-distil", 9/10), ("distil", 4/5)])
  , (.datadome, [("x-dd", 9/10), ("datadome", 9/10)])
  , (.fastly, [("fastly", 4/5), ("x-served-by.*fastly", 9/10)]) ]

/-- Content signature table of `_load_bot_signatures`. -/
def bot_content_signatures : List (BotDetectionSystem × List (String × ℚ)) :=
  [ (.cloudflare, [("ray.id.*[a-f0-9]{16}", 4/5), ("cloudflare", 3/5),
                   ("checking.your.browser", 9/10)])
  , (.akamai, [("reference.*[0-9a-f]{8}\\.[0-9a-f]{8}", 7/10), ("akamai", 3/5)])
  , (.perimeterx, [("px-.*captcha", 9/10), ("perimeterx", 7/10)])
  , (.incapsula, [("incap_ses_[0-9]+", 4/5), ("incapsula.incident", 9/10)])
  , (.custom, [("please.complete.the.security.check", 7/10),
               ("verify.you.are.human", 7/10), ("anti.?robot.validation", 7/10)]) ]

/-- Embeds `ScrapingValidator._detect_bot_system`: scans both signature
tables (regex matching via the oracle); a strictly higher-confidence match
replaces the current system, and every match is appended as an indicator. -/
def detect_bot_system (o : Oracle) (rd : ResponseData) : BotDetection :=
  let d0 : BotDetection := {}
  let d1 := bot_header_signatures.foldl (fun acc sys =>
    sys.2.foldl (fun acc2 sig =>
      rd.headers.foldl (fun acc3 kv =>
        if o.reSearch sig.1 kv.1 then
          let acc4 := if sig.2 > acc3.confidence
            then { acc3 with system := sys.1, confidence := sig.2 } else acc3
          { acc4 with indicators := acc4.indicators ++ ["Header: " ++ kv.1] }
        else acc3) acc2) acc) d0
  if rd.content ≠ "" then
    bot_content_signatures.foldl (fun acc sys =>
      sys.2.foldl (fun acc2 sig =>
        if o.reSearch sig.1 rd.content then
          let acc3 := if sig.2 > acc2.confidence
            then { acc2 with system := sys.1, confidence := sig.2 } else acc2
          { acc3 with indicators := acc3.indicators ++ ["Content pattern: " ++ sig.1] }
        else acc2) acc) d1
  else d1

/-- Placeholder renderings excluded from field completeness
(`['', 'None', 'null', 'N/A']` after trimming). -/
def placeholder_values : List String := ["", "None", "null", "N/A"]

/-- The completeness test of `_validate_data_quality`: the field's value is
truthy and its trimmed string rendering is not a placeholder. -/
def field_non_empty (item : ExtractedRecord) (f : String) : Bool :=
  match recordGet item f with
  | some v => pyTruthy v && !(placeholder_values.contains (strTrim (pyStr v)))
  | Option.none => false

/-- Completeness statistics of one field over the record list. -/
def field_completeness_for (data : List ExtractedRecord) (total : Nat) (f : String) : FieldStat :=
  let c := (data.filter (fun item => field_non_empty item f)).length
  { completeness := (c : ℚ) / (total : ℚ), count := c }

/-- The six recognized fields of `_validate_data_quality`. -/
def expected_fields : List String :=
  ["title", "price", "description", "image_url", "stock_availability", "sku"]

/-- List-comprehension helper `[item.get(f) for item in data if item.get(f)]`:
the truthy values of field `f` in record order. -/
def truthy_field_values (data : List ExtractedRecord) (f : String) : List PyVal :=
  data.filterMap (fun item =>
    match recordGet item f with
    | some v => if pyTruthy v then some v else Option.none
    | Option.none => Option.none)

/-- Placeholder-title patterns of `_analyze_title_quality` applied to the
trimmed, lower-cased title (each regex is anchored at the start by
`re.match`; the first pattern group requires a full match). -/
def is_placeholder_title (s : String) : Bool :=
  s == "title" || s == "product" || s == "item"
  || strStarts s "loading" || strStarts s "undefined"
  || strStarts s "null" || strStarts s "none"
  || s.toList.all Char.isWhitespace
  || (s ≠ "" && s.toList.all Char.isDigit)

/-- Embeds `ScrapingValidator._analyze_title_quality`. -/
def analyze_title_quality (scraped_data : List ExtractedRecord) : ℚ :=
  if scraped_data.isEmpty then 0 else
  let titles := truthy_field_values scraped_data "title"
  if titles.isEmpty then 0 else
  let total : ℚ := (titles.length : ℚ)
  let non_placeholder := (titles.filter (fun v =>
    let s := strLower (strTrim (pyStr v))
    !is_placeholder_title s && decide (strLen s > 3))).length
  let basic_quality := (non_placeholder : ℚ) / total
  let avg_length := ((titles.map (fun v => ((strLen (pyStr v)) : ℚ))).sum) / total
  let length_quality := min 1 (max 0 ((avg_length - 5) / 50))
  let unique_titles := ((titles.map (fun v => strTrim (strLower (pyStr v)))).dedup).length
  let diversity_quality := if titles.length > 1 then (unique_titles : ℚ) / total else 1
  basic_quality * (1/2) + length_quality * (3/10) + diversity_quality * (1/5)

/-- List-comprehension helper for prices that are not `None`
(`item.get('price') is not None`). -/
def not_none_prices (data : List ExtractedRecord) : List PyVal :=
  data.filterMap (fun item =>
    match recordGet item "price" with
    | some v => if v ≠ PyVal.none then some v else Option.none
    | Option.none => Option.none)

/-- `isinstance(price, (int, float))`; Python's `bool` is a subtype of
`int`, so booleans pass this test too. -/
def is_numeric_inst : PyVal → Bool
  | .int _ => true
  | .float _ => true
  | .bool _ => true
  | _ => false

/-- Numeric value of a `PyVal` for the `price >= 0` comparison. -/
def numeric_value : PyVal → ℚ
  | .int n => (n : ℚ)
  | .float q => q
  | .bool b => if b then 1 else 0
  | _ => 0

/-- Embeds `ScrapingValidator._analyze_price_quality`. -/
def analyze_price_quality (scraped_data : List ExtractedRecord) : ℚ :=
  if scraped_data.isEmpty then 0 else
  let prices := not_none_prices scraped_data
  if prices.isEmpty then 0 else
  let valid := (prices.filter (fun v =>
    is_numeric_inst v && decide (0 ≤ numeric_value v))).length
  (valid : ℚ) / (prices.length : ℚ)

/-- The truthy `image_url` values considered by consistency analysis. -/
def consistency_image_urls (data : List ExtractedRecord) : List PyVal :=
  truthy_field_values data "image_url"

/-- The truthy `price` values considered by consistency analysis (note the
truthiness filter: a price of `0` is excluded here). -/
def consistency_prices (data : List ExtractedRecord) : List PyVal :=
  truthy_field_values data "price"

/-- Embeds `ScrapingValidator._analyze_data_consistency`: returns 1 for
fewer than two records; otherwise averages the image-URL-domain agreement
and the price-type agreement, defaulting to 4/5 when neither factor is
computable. -/
def analyze_data_consistency (o : Oracle) (scraped_data : List ExtractedRecord) : ℚ :=
  if scraped_data.length < 2 then 1 else
  let image_urls := consistency_image_urls scraped_data
  let f1 : List ℚ :=
    if image_urls.isEmpty then [] else
    let domains := (image_urls.filterMap (fun u => o.urlNetloc (pyStr u))).dedup
    if domains.isEmpty then [] else
    let most_common := (domains.map (fun d =>
      (image_urls.filter (fun u => strHas (pyStr u) d)).length)).foldl max 0
    [(most_common : ℚ) / (image_urls.length : ℚ)]
  let prices := consistency_prices scraped_data
  let f2 : List ℚ :=
    if prices.length > 1 then
      let names := (prices.map pyTypeName).dedup
      let most_common := (names.map (fun n =>
        (prices.filter (fun p => pyTypeName p == n)).length)).foldl max 0
      [(most_common : ℚ) / (prices.length : ℚ)]
    else []
  let factors := f1 ++ f2
  if factors.isEmpty then 4/5 else factors.sum / (factors.length : ℚ)

/-- Return value of `_validate_data_quality`. -/
structure QualityValidation where
  is_valid : Bool := false
  quality_score : ℚ := 0
  issues : List String := []
  warnings : List String := []
  stats : DataStats := {}
deriving DecidableEq

/-- Lookup `field_completeness.get(f, {}).get('completeness', 0)`. -/
def fc_lookup (fc : List (String × FieldStat)) (f : String) : ℚ :=
  match fc with
  | [] => 0
  | (k, st) :: rest => if k = f then st.completeness else fc_lookup rest f

/-- Embeds `ScrapingValidator._validate_data_quality`.  (Warning strings
are rendered with exact rationals where the source uses 2-decimal float
formatting, and the missing-required-fields issue renders the list
comma-separated where the source uses Python list repr; no claim inspects
these renderings.  The `total_items == 0` guard of the source is
unreachable after the emptiness guard and is therefore not a branch here.) -/
def validate_data_quality (cfg : ValidatorConfig) (o : Oracle)
    (scraped_data : Option (List ExtractedRecord)) (csv_file_path : Option String) :
    QualityValidation :=
  let loaded : Except String (Option (List ExtractedRecord)) :=
    match scraped_data, csv_file_path with
    | Option.none, some p =>
      match o.csvLoad p with
      | .ok rows => .ok (some rows)
      | .error e => .error e
    | sd, _ => .ok sd
  match loaded with
  | .error e => { issues := ["Could not load CSV file: " ++ e] }
  | .ok sd =>
    let data := sd.getD []
    if data.isEmpty then
      { issues := ["No scraped data provided for validation"] }
    else
      let total := data.length
      let fc := expected_fields.map (fun f => (f, field_completeness_for data total f))
      let stats0 : DataStats := { total_items := some total, field_completeness := some fc }
      let missing_required := cfg.min_required_fields.filter (fun f =>
        if fc_lookup fc f = 0 then true else false)
      if !missing_required.isEmpty then
        { issues := ["Missing required fields: " ++ String.intercalate ", " missing_required]
        , stats := stats0 }
      else
        let title_completeness := fc_lookup fc "title"
        let title_quality := analyze_title_quality data
        let price_completeness := fc_lookup fc "price"
        let price_quality := analyze_price_quality data
        let filled := (fc.filter (fun kv => if 0 < kv.2.completeness then true else false)).length
        let field_diversity := (filled : ℚ) / (expected_fields.length : ℚ)
        let consistency := analyze_data_consistency o data
        let total_score := title_completeness * (3/10) + title_quality * (1/5)
          + price_completeness * (1/5) + price_quality * (1/10)
          + field_diversity * (1/10) + consistency * (1/10)
        let qf := [("title_completeness", title_completeness), ("title_quality", title_quality),
                   ("price_completeness", price_completeness), ("price_quality", price_quality),
                   ("field_diversity", field_diversity), ("consistency", consistency)]
        let warns :=
          (if total_score < 9/10 then
            ["Data quality score is moderate: " ++ toString total_score] else [])
          ++ (if title_completeness < 4/5 then
            ["Title completeness is low: " ++ toString title_completeness] else [])
          ++ (if price_completeness < 1/2 then
            ["Price completeness is low: " ++ toString price_completeness] else [])
        { is_valid := if cfg.min_data_quality_score ≤ total_score then true else false
        , quality_score := total_score
        , warnings := warns
        , stats := { stats0 with quality_factors := some qf } }

/-- Embeds `ScrapingValidator._calculate_confidence`: average of the
status-plausibility factor, the bot confidence (if a system was flagged),
the consistency sub-score (if data stats exist) and the issue-count
penalty. -/
def calculate_confidence (r : ValidationResult) (rd : ResponseData) : ℚ :=
  let f1 : ℚ :=
    if 200 ≤ rd.status_code ∧ rd.status_code < 300 then 9/10
    else if 400 ≤ rd.status_code ∧ rd.status_code < 500 then 4/5
    else 3/5
  let fs2 := [f1] ++
    (if r.bot_detection_system ≠ some BotDetectionSystem.none then
      [match metaLookup "bot_system_confidence" r.metadata with
       | some (MetaValue.q c) => c
       | _ => 1/2]
    else [])
  let fs3 := fs2 ++
    (match metaLookup "data_stats" r.metadata with
     | some (MetaValue.stats st) =>
       [match st.quality_factors with
        | some qf =>
          match qf.find? (fun kv => kv.1 == "consistency") with
          | some kv => kv.2
          | Option.none => 1/2
        | Option.none => 1/2]
     | _ => [])
  let fs4 := fs3 ++ [max 0 (1 - (r.issues.length : ℚ) * (1/10))]
  fs4.sum / (fs4.length : ℚ)

/-- Embeds `ScrapingValidator.validate_scraping_result`: blocking analysis,
bot-system detection, data-quality scoring (skipped when blocked), and the
final overall confidence.  All embedded operations are total, so the
source's catch-all handler (which appends a "Validation failed" issue) has
no reachable counterpart here. -/
def validator_validate (cfg : ValidatorConfig) (o : Oracle) (rd : ResponseData)
    (scraped_data : Option (List ExtractedRecord)) (csv_file_path : Option String) :
    ValidationResult :=
  let base : ValidationResult :=
    { is_successful := false, is_blocked := false
    , bot_detection_system := Option.none, confidence_score := 0 }
  let ba := analyze_blocking o rd
  let r1 :=
    if ba.is_blocked then
      { base with is_blocked := true
                , issues := base.issues ++ ba.issues
                , metadata := metaSet base.metadata "block_type" (MetaValue.bt ba.block_type) }
    else base
  let bd := detect_bot_system o rd
  let r2 :=
    { r1 with bot_detection_system := some bd.system
            , metadata :=
                if bd.system ≠ BotDetectionSystem.none then
                  metaSet (metaSet r1.metadata "bot_system_confidence" (MetaValue.q bd.confidence))
                    "bot_indicators" (MetaValue.strs bd.indicators)
                else r1.metadata }
  let r3 :=
    if r2.is_blocked then r2
    else
      let dv := validate_data_quality cfg o scraped_data csv_file_path
      let r := { r2 with is_successful := dv.is_valid
                       , confidence_score := dv.quality_score
                       , metadata := metaSet r2.metadata "data_stats" (MetaValue.stats dv.stats) }
      if dv.is_valid then { r with warnings := r.warnings ++ dv.warnings }
      else { r with issues := r.issues ++ dv.issues }
  { r3 with confidence_score := calculate_confidence r3 rd }

/-- Collection settings read by `ResponseCollector.__init__` (defaults
when no config is supplied). -/
structure CollectorConfig where
  collect_headers : Bool := true
  collect_content : Bool := false
  max_content_size : Nat := 1048576

/-- Embeds `ResponseCollector._create_base_response_data` (note the
`status_code` default of 200). -/
def create_base_response_data (collector_type : String) (now : ℚ) (url : String)
    (status_code : Int := 200) : ResponseData :=
  { url := url, status_code := status_code, headers := [], content := ""
  , response_time := 0, timestamp := now, collector_type := collector_type }

/-- Embeds `ResponseCollector._sanitize_content`. -/
def sanitize_content (cfg : CollectorConfig) (content : String) : String :=
  if !cfg.collect_content then "" else
  if content = "" then "" else
  if strLen content > cfg.max_content_size then
    (strTake content cfg.max_content_size) ++ "... [truncated]"
  else content

/-- Embeds `ResponseCollector._sanitize_headers`: lower-cases keys.
(The source folds into a dict, merging duplicate lowered keys; duplicates
do not arise in any claim.) -/
def sanitize_headers (cfg : CollectorConfig) (hs : List (String × String)) :
    List (String × String) :=
  if !cfg.collect_headers then [] else hs.map (fun kv => (strLower kv.1, kv.2))

/-- A Scrapy response handle as the collector can observe it: either it
lacks a `status` attribute (invalid), or it carries the response fields,
or touching it raises (collector exception path). -/
inductive ScrapyHandle where
  | invalid
  | valid (url : String) (status : Int) (headers : List (String × String))
      (text : String) (latency : Option ℚ)
  | raising (msg : String)
deriving DecidableEq

/-- Embeds `ScrapyResponseCollector.collect_response_data`.  The invalid
handle path returns the base record with its default `status_code=200`;
only the exception path passes `status_code=0`.  Neither failure path
records the failure reason — the record carries only the collector tag. -/
def scrapy_collect (cfg : CollectorConfig) (h : ScrapyHandle) (url : Option String)
    (now : ℚ) : ResponseData :=
  match h with
  | .invalid => create_base_response_data "ScrapyResponseCollector" now (url.getD "unknown")
  | .raising _ => create_base_response_data "ScrapyResponseCollector" now (url.getD "unknown") 0
  | .valid u st hs txt lat =>
    { create_base_response_data "ScrapyResponseCollector" now (url.getD u) st with
        headers := sanitize_headers cfg hs
      , content := sanitize_content cfg txt
      , response_time := lat.getD 0 }

/-- Embeds `ValidationManager._create_fallback_response_data` (used on
collection timeout or collector exception at the manager level). -/
def fallback_response_data (url : Option String) (now : ℚ) : ResponseData :=
  { url := url.getD "unknown", status_code := 0, headers := [], content := ""
  , response_time := 0, timestamp := now, collector_type := "fallback" }

/-- The opaque scraper-specific response handle carried by a task. -/
inductive ResponseSource where
  | scrapy (h : ScrapyHandle)
  | other (tag : String)
deriving DecidableEq

/-- Embeds the `ValidationTask` dataclass of `validation_manager.py`. -/
structure ValidationTask where
  scraper_type : String
  response_source : ResponseSource
  scraped_data : Option (List ExtractedRecord) := Option.none
  csv_file_path : Option String := Option.none
  url : Option String := Option.none
  task_id : Option String := Option.none
deriving DecidableEq

/-- Embeds `ValidationManager._create_error_result`. -/
def create_error_result (error_message : String) (url : String) (now : ℚ) :
    ValidationResult :=
  { is_successful := false
  , is_blocked := false
  , bot_detection_system := some BotDetectionSystem.none
  , confidence_score := 0
  , issues := ["Validation error: " ++ error_message]
  , warnings := []
  , metadata := [("error", MetaValue.b true), ("url", MetaValue.s url),
                 ("timestamp", MetaValue.q now)] }

/-- Embeds `ValidationManager.validate_scraping_result`.  Exceptions are
explicit fault parameters: `outerFault` is an exception escaping the inner
handlers and caught by the outer catch-all (e.g. from the cache);
`collectOutcome` is the outcome of `_collect_response_data` (its own
handler converts timeout/exception to the fallback response record);
`performFault` is an exception inside `_perform_validation` (converted to
an error result there).  The function is total: every combination of
faults yields a `ValidationResult`, mirroring "never raises". -/
def manager_validate (cfg : ValidatorConfig) (o : Oracle) (outerFault : Option String)
    (cacheEnabled : Bool) (cacheLookup : Option ValidationResult)
    (collectOutcome : Except String ResponseData) (performFault : Option String)
    (task : ValidationTask) (now : ℚ) : ValidationResult :=
  match outerFault with
  | some e => create_error_result e (task.url.getD "unknown") now
  | Option.none =>
    match (if cacheEnabled then cacheLookup else Option.none) with
    | some cached => cached
    | Option.none =>
      let rd := match collectOutcome with
        | .ok rd => rd
        | .error _ => fallback_response_data task.url now
      match performFault with
      | some e => create_error_result e rd.url now
      | Option.none =>
        let r := validator_validate cfg o rd task.scraped_data task.csv_file_path
        let m1 := metaSet r.metadata "task_id" (MetaValue.osv task.task_id)
        let m2 := metaSet m1 "scraper_type" (MetaValue.s task.scraper_type)
        let m3 := metaSet m2 "validation_timestamp" (MetaValue.q now)
        { r with metadata := m3 }

/-- The components hashed by `ValidationCache._generate_cache_key`.  The
source md5-hashes a canonical JSON rendering of exactly these components;
the digest is modelled by the components themselves (an injective
stand-in for the hash, which the cache relies on). -/
structure CacheKeyData where
  scraper_type : String
  url : String
  data_count : Nat
  data_hash : Option (List ExtractedRecord)
deriving DecidableEq

/-- Embeds `ValidationCache._generate_cache_key`: scraper type, URL (or
"unknown"), record count, and — when records exist — a hash of the first
five records. -/
def generate_cache_key (task : ValidationTask) : CacheKeyData :=
  { scraper_type := task.scraper_type
  , url := task.url.getD "unknown"
  , data_count := (task.scraped_data.getD []).length
  , data_hash :=
      if (task.scraped_data.getD []).isEmpty then Option.none
      else some ((task.scraped_data.getD []).take 5) }

/-- In-memory state of `ValidationCache`: cache key to (timestamp, result)
in insertion order. -/
structure ValidationCacheState where
  entries : List (CacheKeyData × ℚ × ValidationResult) := []
deriving DecidableEq

/-- Dictionary lookup in the cache table. -/
def cache_lookup (k : CacheKeyData) :
    List (CacheKeyData × ℚ × ValidationResult) → Option (ℚ × ValidationResult)
  | [] => Option.none
  | e :: rest => if e.1 = k then some e.2 else cache_lookup k rest

/-- Dictionary assignment in the cache table: replace in place or append. -/
def cache_insert (entries : List (CacheKeyData × ℚ × ValidationResult))
    (k : CacheKeyData) (v : ℚ × ValidationResult) :
    List (CacheKeyData × ℚ × ValidationResult) :=
  match entries with
  | [] => [(k, v)]
  | e :: rest => if e.1 = k then (k, v) :: rest else e :: cache_insert rest k v

/-- Embeds `ValidationCache.get`: a present entry older than the TTL is
deleted and reported as a miss; otherwise it is returned. -/
def cache_get (ttl : ℚ) (st : ValidationCacheState) (task : ValidationTask)
    (now : ℚ) : Option ValidationResult × ValidationCacheState :=
  let k := generate_cache_key task
  match cache_lookup k st.entries with
  | Option.none => (Option.none, st)
  | some (ts, r) =>
    if now - ts > ttl then
      (Option.none, ⟨st.entries.filter (fun e => !(decide (e.1 = k)))⟩)
    else (some r, st)

/-- Embeds `ValidationCache._cleanup_expired`. -/
def cache_cleanup_expired (ttl now : ℚ)
    (entries : List (CacheKeyData × ℚ × ValidationResult)) :
    List (CacheKeyData × ℚ × ValidationResult) :=
  entries.filter (fun e => !(decide (now - e.2.1 > ttl)))

/-- Stable insertion (ascending by timestamp) used to model Python's
stable `sorted` over cache keys. -/
def ts_insert (x : CacheKeyData × ℚ) :
    List (CacheKeyData × ℚ) → List (CacheKeyData × ℚ)
  | [] => [x]
  | y :: rest => if y.2 ≤ x.2 then y :: ts_insert x rest else x :: y :: rest

/-- Embeds `ValidationCache.set`: when the table is full, expired entries
are dropped and, if still full, the oldest quarter (by timestamp) is
removed before inserting the new entry. -/
def cache_set (ttl : ℚ) (max_size : Nat) (st : ValidationCacheState)
    (task : ValidationTask) (result : ValidationResult) (now : ℚ) :
    ValidationCacheState :=
  let k := generate_cache_key task
  let entries :=
    if st.entries.length ≥ max_size then
      let cleaned := cache_cleanup_expired ttl now st.entries
      if cleaned.length ≥ max_size then
        let sorted := (cleaned.map (fun e => (e.1, e.2.1))).foldl
          (fun acc x => ts_insert x acc) []
        let oldest := (sorted.take (max_size / 4)).map Prod.fst
        cleaned.filter (fun e => !(oldest.contains e.1))
      else cleaned
    else st.entries
  ⟨cache_insert entries k (now, result)⟩

/-- Entry of `AdvancedCache` (`CacheEntry` in `validation_performance.py`). -/
structure AdvCacheEntry (α : Type) where
  data : α
  timestamp : ℚ
  access_count : Nat := 0
  last_access : ℚ
  size_bytes : Nat := 0
  ttl_override : Option ℚ := Option.none
deriving DecidableEq

/-- Embeds `CacheEntry.is_expired`: per-entry TTL override, else default. -/
def adv_is_expired (default_ttl now : ℚ) (e : AdvCacheEntry α) : Bool :=
  if now - e.timestamp > e.ttl_override.getD default_ttl then true else false

/-- Embeds `CacheEntry.access`. -/
def adv_access (now : ℚ) (e : AdvCacheEntry α) : AdvCacheEntry α :=
  { e with access_count := e.access_count + 1, last_access := now }

/-- State of `AdvancedCache`: the in-memory entry table, the LRU access
order (front = least recently used), and the persistent tier — one file
per cache key holding (modification time, serialized bytes), since
`_save_to_persistent` stamps the file's mtime with the entry timestamp
via `os.utime`. -/
structure AdvCache (α : Type) where
  entries : List (String × AdvCacheEntry α) := []
  access_order : List String := []
  persistent : List (String × ℚ × List Nat) := []
deriving DecidableEq

/-- Dictionary lookup in the advanced-cache table. -/
def adv_lookup (k : String) : List (String × AdvCacheEntry α) → Option (AdvCacheEntry α)
  | [] => Option.none
  | e :: rest => if e.1 = k then some e.2 else adv_lookup k rest

/-- Dictionary assignment in the advanced-cache table. -/
def adv_insert (entries : List (String × AdvCacheEntry α)) (k : String)
    (v : AdvCacheEntry α) : List (String × AdvCacheEntry α) :=
  match entries with
  | [] => [(k, v)]
  | e :: rest => if e.1 = k then (k, v) :: rest else e :: adv_insert rest k v

/-- The components hashed by `AdvancedCache._generate_data_signature`. -/
inductive DataSignature where
  | no_data
  | sig (count : Nat) (sample : List ExtractedRecord) (fields : List String)
deriving DecidableEq

/-- Embeds `AdvancedCache._generate_data_signature`: "no_data" for an
absent or empty record list, otherwise the count, the first three records
and the field names of the first record (md5-16 digest idealised as the
components themselves). -/
def generate_data_signature (scraped_data : Option (List ExtractedRecord)) :
    DataSignature :=
  let d := scraped_data.getD []
  if d.isEmpty then .no_data
  else .sig d.length (d.take 3) ((d.head?.getD []).map Prod.fst)

/-- The components hashed by `AdvancedCache._generate_cache_key` (sha256
digest idealised as the components themselves). -/
structure AdvKeyData where
  scraper_type : String
  url : String
  data_signature : DataSignature
deriving DecidableEq

/-- Embeds `AdvancedCache._generate_cache_key`. -/
def generate_adv_cache_key (scraper_type : String) (url : Option String)
    (scraped_data : Option (List ExtractedRecord)) : AdvKeyData :=
  { scraper_type := scraper_type
  , url := url.getD "unknown"
  , data_signature := generate_data_signature scraped_data }

/-- Whether the byte list `n` occurs at the front of `h`. -/
def natStarts : List Nat → List Nat → Bool
  | [], _ => true
  | _ :: _, [] => false
  | a :: as, b :: bs => a == b && natStarts as bs

/-- The marker bytes `b"COMPRESSED:"` prepended to compressed entries. -/
def compressed_marker : List Nat := [67, 79, 77, 80, 82, 69, 83, 83, 69, 68, 58]

/-- An external compression codec (lz4 or gzip in the source). -/
structure Compressor where
  comp : List Nat → List Nat
  decomp : List Nat → List Nat

/-- Embeds `AdvancedCache._serialize_entry`: pickle, then compress with
the marker prepended when compression is enabled, a codec is available
and the pickled form exceeds the threshold. -/
def serialize_entry (pickle : α → List Nat) (compressor : Option Compressor)
    (enabled : Bool) (threshold : Nat) (x : α) : List Nat :=
  let s := pickle x
  match compressor, enabled && decide (s.length > threshold) with
  | some c, true => compressed_marker ++ c.comp s
  | _, _ => s

/-- Embeds `AdvancedCache._deserialize_entry`: strip the marker and
decompress when present, then unpickle. -/
def deserialize_entry (unpickle : List Nat → Option α) (compressor : Option Compressor)
    (bs : List Nat) : Option α :=
  if natStarts compressed_marker bs then
    match compressor with
    | some c => unpickle (c.decomp (bs.drop compressed_marker.length))
    | Option.none => unpickle (bs.drop compressed_marker.length)
  else unpickle bs

/-- Caching strategies (`CacheStrategy` in `validation_performance.py`). -/
inductive CacheStrategy where
  | memory_only
  | persistent
  | hybrid
  | distributed
deriving DecidableEq

/-- Construction-time parameters of `AdvancedCache` (defaults as in
`AdvancedCache.__init__`), together with the external pickle codec and
optional compression codec; `has_persistent_dir` models whether a
persistent directory is configured (it always is under the persistent
and hybrid strategies in the source, which creates one on demand). -/
structure AdvCacheConfig (α : Type) where
  strategy : CacheStrategy := .hybrid
  max_entries : Nat := 10000
  default_ttl : ℚ := 300
  pickle : α → List Nat
  unpickle : List Nat → Option α
  compressor : Option Compressor := Option.none
  compression_enabled : Bool := true
  compression_threshold : Nat := 1024
  has_persistent_dir : Bool := true

/-- Lookup of a persistent-tier file by cache key. -/
def plookup (k : String) : List (String × ℚ × List Nat) → Option (ℚ × List Nat)
  | [] => Option.none
  | e :: rest => if e.1 = k then some e.2 else plookup k rest

/-- Writing a persistent-tier file (overwrites an existing one). -/
def pinsert (files : List (String × ℚ × List Nat)) (k : String) (v : ℚ × List Nat) :
    List (String × ℚ × List Nat) :=
  match files with
  | [] => [(k, v)]
  | e :: rest => if e.1 = k then (k, v) :: rest else e :: pinsert rest k v

/-- Embeds the loop of `AdvancedCache._evict_lru_entries`: pop keys from
the front of the access order, deleting and counting only those still in
the table, until `count` entries are evicted or the order is empty. -/
def adv_evict_go (count : Nat) : List String → List (String × AdvCacheEntry α) →
    List String × List (String × AdvCacheEntry α)
  | order, entries =>
    match count, order with
    | 0, order => (order, entries)
    | _ + 1, [] => ([], entries)
    | n + 1, k :: rest =>
      if (adv_lookup k entries).isSome then
        adv_evict_go n rest (entries.filter (fun kv => !(decide (kv.1 = k))))
      else
        adv_evict_go (n + 1) rest entries

/-- Embeds `AdvancedCache._evict_lru_entries`. -/
def adv_evict_lru (count : Nat) (c : AdvCache α) : AdvCache α :=
  let r := adv_evict_go count c.access_order c.entries
  { c with access_order := r.1, entries := r.2 }

/-- Embeds `AdvancedCache._save_to_persistent`: serialize the data and
write it to the key's file, stamping the file's modification time with
the entry timestamp (`os.utime`); the per-entry TTL override is NOT
written anywhere. -/
def save_to_persistent (cfg : AdvCacheConfig α) (c : AdvCache α) (k : String)
    (data : α) (timestamp : ℚ) : AdvCache α :=
  if !cfg.has_persistent_dir then c
  else
    let serialized := serialize_entry cfg.pickle cfg.compressor
      cfg.compression_enabled cfg.compression_threshold data
    { c with persistent := pinsert c.persistent k (timestamp, serialized) }

/-- Embeds `AdvancedCache._load_from_persistent`: a file older than the
DEFAULT TTL (the only TTL the disk tier knows) is removed and reported
absent; otherwise the contents are deserialized (a deserialization
failure, caught by the source's handler, is the `Option.none` result of
the codec). -/
def load_from_persistent (cfg : AdvCacheConfig α) (c : AdvCache α) (k : String)
    (now : ℚ) : Option α × AdvCache α :=
  if !cfg.has_persistent_dir then (Option.none, c)
  else
    match plookup k c.persistent with
    | Option.none => (Option.none, c)
    | some (mtime, bytes) =>
      if now - mtime > cfg.default_ttl then
        (Option.none, { c with persistent := c.persistent.filter (fun e => !(decide (e.1 = k))) })
      else (deserialize_entry cfg.unpickle cfg.compressor bytes, c)

/-- Embeds `AdvancedCache.set`: serialize for the size accounting, build
the entry (timestamp and last access = now, the caller's TTL override),
insert into memory — evicting one LRU entry when full — under the
memory-only/hybrid strategies or when promoting, and write the file under
the persistent/hybrid strategies. -/
def adv_set (cfg : AdvCacheConfig α) (c : AdvCache α) (k : String) (data : α)
    (ttl_override : Option ℚ) (promote_to_memory : Bool) (now : ℚ) : AdvCache α :=
  let serialized := serialize_entry cfg.pickle cfg.compressor
    cfg.compression_enabled cfg.compression_threshold data
  let entry : AdvCacheEntry α :=
    { data := data, timestamp := now, last_access := now
    , size_bytes := serialized.length, ttl_override := ttl_override }
  let c1 :=
    if cfg.strategy = CacheStrategy.memory_only ∨ cfg.strategy = CacheStrategy.hybrid
        ∨ promote_to_memory = true then
      let c0 := if c.entries.length ≥ cfg.max_entries then adv_evict_lru 1 c else c
      let order2 := (c0.access_order.filter (fun x => !(decide (x = k)))) ++ [k]
      { c0 with entries := adv_insert c0.entries k entry, access_order := order2 }
    else c
  if cfg.strategy = CacheStrategy.persistent ∨ cfg.strategy = CacheStrategy.hybrid then
    save_to_persistent cfg c1 k data entry.timestamp
  else c1

/-- Embeds `AdvancedCache.get` in full: a present-but-expired memory
entry (per-entry TTL override, else default) is deleted and reported as
a miss WITHOUT consulting the disk; a fresh memory entry is
access-counted, moved to the back of the LRU order, and returned; on an
absent key under the hybrid strategy the persistent tier is consulted —
validated against the default TTL only — and a hit is promoted back into
memory via `set` (with no TTL override and a fresh timestamp) and
returned. -/
def adv_get (cfg : AdvCacheConfig α) (c : AdvCache α) (k : String) (now : ℚ) :
    Option α × AdvCache α :=
  match adv_lookup k c.entries with
  | some e =>
    if adv_is_expired cfg.default_ttl now e = true then
      let entries2 := c.entries.filter (fun kv => !(decide (kv.1 = k)))
      let order2 := c.access_order.filter (fun x => !(decide (x = k)))
      (Option.none, { c with entries := entries2, access_order := order2 })
    else
      let entries2 := adv_insert c.entries k (adv_access now e)
      let order2 := (c.access_order.filter (fun x => !(decide (x = k)))) ++ [k]
      (some e.data, { c with entries := entries2, access_order := order2 })
  | Option.none =>
    if cfg.strategy = CacheStrategy.hybrid ∧ cfg.has_persistent_dir = true then
      match load_from_persistent cfg c k now with
      | (some d, c2) => (some d, adv_set cfg c2 k d Option.none true now)
      | (Option.none, c2) => (Option.none, c2)
    else (Option.none, c)

/-- Error categories (`ErrorCategory` in `validation_error_handling.py`). -/
inductive ErrorCategory where
  | configuration
  | network
  | parsing
  | validation
  | resource
  | system
  | integration
deriving DecidableEq

/-- Error severities (`ErrorSeverity`). -/
inductive ErrorSeverity where
  | low
  | medium
  | high
  | critical
deriving DecidableEq

/-- Keyword word-lists of `classify_error`, in source order. -/
def network_keywords : List String := ["timeout", "connection", "network", "dns", "socket"]

/-- Parsing keywords. -/
def parsing_keywords : List String := ["parse", "decode", "json", "csv", "format", "encoding"]

/-- Resource keywords. -/
def resource_keywords : List String := ["memory", "resource", "limit", "quota", "capacity"]

/-- Configuration keywords. -/
def configuration_keywords : List String :=
  ["config", "setting", "parameter", "option", "environment"]

/-- Integration keywords. -/
def integration_keywords : List String :=
  ["import", "module", "attribute", "method", "interface"]

/-- Exception type names treated as system-level. -/
def fatal_error_types : List String := ["SystemError", "OSError", "PermissionError"]

/-- Keyword containment test (`any(kw in message.lower() for kw in ...)`). -/
def containsAny (message : String) (kws : List String) : Bool :=
  kws.any (fun k => strHas (strLower message) k)

/-- The component test (`component and 'validator' in component.lower()`). -/
def is_validator_component : Option String → Bool
  | some c => c ≠ "" && strHas (strLower c) "validator"
  | Option.none => false

/-- Embeds `ValidationErrorHandler.classify_error`: the keyword branches
are tried first in source order, then the validator-component branch,
then the fatal exception types, and finally the System/Medium default. -/
def classify_error (message error_type : String) (component : Option String) :
    ErrorCategory × ErrorSeverity :=
  if containsAny message network_keywords then (.network, .medium)
  else if containsAny message parsing_keywords then (.parsing, .low)
  else if containsAny message resource_keywords then (.resource, .high)
  else if containsAny message configuration_keywords then (.configuration, .medium)
  else if containsAny message integration_keywords then (.integration, .high)
  else if is_validator_component component then (.validation, .medium)
  else if fatal_error_types.contains error_type then (.system, .critical)
  else (.system, .medium)

/-- An exception message matching none of the category word-lists. -/
def matches_no_category (message : String) : Bool :=
  !containsAny message network_keywords
  && !containsAny message parsing_keywords
  && !containsAny message resource_keywords
  && !containsAny message configuration_keywords
  && !containsAny message integration_keywords

/-- Concrete 403 response used to witness the status-table claims. -/
def rd403 : ResponseData :=
  { url := "", status_code := 403, headers := [], content := ""
  , response_time := 0, timestamp := 0, collector_type := "test" }

/-- Concrete 429 response used to witness the blocked-verdict claims. -/
def rd429 : ResponseData :=
  { url := "", status_code := 429, headers := [], content := ""
  , response_time := 0, timestamp := 0, collector_type := "test" }

/-- Concrete plain 200 response (empty body and headers). -/
def rd200 : ResponseData :=
  { url := "", status_code := 200, headers := [], content := ""
  , response_time := 0, timestamp := 0, collector_type := "test" }

/-- First record of the poor-data concrete case. -/
def poor_rec1 : ExtractedRecord := [("title", PyVal.str "loading..."), ("price", PyVal.none)]

/-- Second record of the poor-data concrete case. -/
def poor_rec2 : ExtractedRecord := [("title", PyVal.str ""), ("price", PyVal.int 0)]

/-- The poor-data record list of the spec's concrete case. -/
def poor_records : List ExtractedRecord := [poor_rec1, poor_rec2]

/-- A concrete validation task used in witnesses. -/
def mtask : ValidationTask :=
  { scraper_type := "scrapy", response_source := ResponseSource.other "h"
  , scraped_data := some [poor_rec1], url := some "https://example.com"
  , task_id := some "t1" }

/-- A second concrete task: same fingerprint components as `mtask` but a
different task id, csv path, response handle. -/
def mtask_b : ValidationTask :=
  { scraper_type := "scrapy", response_source := ResponseSource.scrapy ScrapyHandle.invalid
  , scraped_data := some [poor_rec1], url := some "https://example.com"
  , csv_file_path := some "out.csv", task_id := some "t2" }

/-- A third concrete task differing from `mtask` only in scraper type. -/
def mtask_c : ValidationTask :=
  { scraper_type := "playwright", response_source := ResponseSource.other "h"
  , scraped_data := some [poor_rec1], url := some "https://example.com"
  , task_id := some "t1" }

/-- A concrete verdict used in cache witnesses. -/
def vres : ValidationResult :=
  { is_successful := true, is_blocked := false
  , bot_detection_system := some BotDetectionSystem.none, confidence_score := 1 }

/-- Witness pickle codec (booleans to a one-byte list). -/
def wpickle : Bool → List Nat := fun b => if b then [1] else [0]

/-- Witness unpickle codec, inverse of `wpickle`. -/
def wunpickle : List Nat → Option Bool := fun l =>
  if l = [1] then some true else if l = [0] then some false else Option.none

/-- Witness compression codec (the identity). -/
def wcompressor : Compressor := { comp := fun l => l, decomp := fun l => l }

/-- Default collector configuration. -/
def collector_cfg : CollectorConfig := {}

/-- Witness pickle codec for verdicts (constant one-byte encoding,
sufficient for the single stored verdict of the trace below). -/
def cres_pickle : ValidationResult → List Nat := fun _ => [0]

/-- Witness unpickle codec, inverse of `cres_pickle` on the stored
verdict. -/
def cres_unpickle : List Nat → Option ValidationResult := fun l =>
  if l = [0] then some vres else Option.none

/-- An `AdvancedCache` configuration with the constructor defaults
(hybrid strategy, default TTL 300, persistent directory present). -/
def advcfg : AdvCacheConfig ValidationResult :=
  { pickle := cres_pickle, unpickle := cres_unpickle }

/-- The empty advanced-cache state. -/
def advcache0 : AdvCache ValidationResult := {}

theorem metaLookup_metaSet (m : Metadata) (k k2 : String) (v : MetaValue) :
    metaLookup k (metaSet m k2 v) = if k2 = k then some v else metaLookup k m := by
  induction m with
  | nil => simp [metaSet, metaLookup]
  | cons e rest ih =>
    obtain ⟨k3, v3⟩ := e
    by_cases h : k3 = k2
    · subst h
      by_cases h2 : k3 = k <;> simp [metaSet, metaLookup, h2]
    · by_cases h2 : k3 = k
      · subst h2
        have hne : ¬ k2 = k3 := fun hc => h hc.symm
        simp [metaSet, metaLookup, h, hne]
      · simp [metaSet, metaLookup, h, h2, ih]

theorem validator_is_blocked_eq (cfg : ValidatorConfig) (o : Oracle)
    (rd : ResponseData) (sd : Option (List ExtractedRecord)) (csv : Option String) :
    (validator_validate cfg o rd sd csv).is_blocked = (analyze_blocking o rd).is_blocked := by
  unfold validator_validate
  by_cases hb : (analyze_blocking o rd).is_blocked = true
  · simp [hb]
  · simp only [Bool.not_eq_true] at hb
    simp only [hb, Bool.false_eq_true, if_false]
    split <;> simp [hb]

theorem validator_blocked_fields (cfg : ValidatorConfig) (o : Oracle)
    (rd : ResponseData) (sd : Option (List ExtractedRecord)) (csv : Option String)
    (hb : (analyze_blocking o rd).is_blocked = true) :
    (validator_validate cfg o rd sd csv).metadata =
      (if (detect_bot_system o rd).system ≠ BotDetectionSystem.none then
        metaSet (metaSet [("block_type", MetaValue.bt (analyze_blocking o rd).block_type)]
          "bot_system_confidence" (MetaValue.q (detect_bot_system o rd).confidence))
          "bot_indicators" (MetaValue.strs (detect_bot_system o rd).indicators)
      else [("block_type", MetaValue.bt (analyze_blocking o rd).block_type)]) ∧
    (validator_validate cfg o rd sd csv).is_successful = false := by
  unfold validator_validate
  simp [hb, metaSet]

theorem title_quality_poor : analyze_title_quality [poor_rec1, poor_rec2] = 23/100 := by
  norm_num +decide [analyze_title_quality, truthy_field_values, poor_rec1, poor_rec2,
    recordGet, pyTruthy, pyStr, strLower, strTrim, strLen, strStarts,
    is_placeholder_title, charStarts, List.filterMap, List.filter, List.dedup,
    List.foldl, List.dropWhile, List.find?, Char.isWhitespace, Char.toLower,
    (show ("loading..." : String).length = 10 from by decide),
    inf_eq_min, sup_eq_max, min_def, max_def]

theorem price_quality_poor : analyze_price_quality [poor_rec1, poor_rec2] = 1 := by
  norm_num +decide [analyze_price_quality, not_none_prices, poor_rec1, poor_rec2,
    recordGet, is_numeric_inst, numeric_value, List.filterMap, List.filter]

theorem consistency_poor (o : Oracle) :
    analyze_data_consistency o [poor_rec1, poor_rec2] = 4/5 := rfl

theorem field_stat_title_poor :
    field_non_empty poor_rec1 "title" = true ∧ field_non_empty poor_rec2 "title" = false := by
  decide

theorem field_stat_rest_poor :
    ∀ f ∈ ["price", "description", "image_url", "stock_availability", "sku"],
    field_non_empty poor_rec1 f = false ∧ field_non_empty poor_rec2 f = false := by
  decide

set_option maxHeartbeats 1000000 in
theorem quality_validation_poor :
    (validate_data_quality default_config oracle0 (some poor_records) Option.none).is_valid = false ∧
    (validate_data_quality default_config oracle0 (some poor_records) Option.none).issues = [] := by
  have h1 := field_stat_rest_poor "price" (by decide)
  have h2 := field_stat_rest_poor "description" (by decide)
  have h3 := field_stat_rest_poor "image_url" (by decide)
  have h4 := field_stat_rest_poor "stock_availability" (by decide)
  have h5 := field_stat_rest_poor "sku" (by decide)
  norm_num [validate_data_quality, field_completeness_for, fc_lookup,
    expected_fields, poor_records, default_config, List.filter, List.map,
    title_quality_poor, price_quality_poor, consistency_poor,
    field_stat_title_poor.1, field_stat_title_poor.2,
    h1.1, h1.2, h2.1, h2.2, h3.1, h3.2, h4.1, h4.2, h5.1, h5.2,
    (show ¬ (("title" : String) = "price") from by decide),
    (show ¬ (("title" : String) = "description") from by decide),
    (show ¬ (("title" : String) = "image_url") from by decide),
    (show ¬ (("title" : String) = "stock_availability") from by decide),
    (show ¬ (("title" : String) = "sku") from by decide)]

theorem blocking_eval_200 : analyze_blocking oracle0 rd200 =
    { is_blocked := false, block_type := BlockType.none, issues := [], confidence := 0 } := by
  decide

theorem bot_eval_200 : detect_bot_system oracle0 rd200 =
    { system := BotDetectionSystem.none, confidence := 0, indicators := [] } := by
  decide

theorem poor_verdict_eval :
    (validator_validate default_config oracle0 rd200 (some poor_records) Option.none).is_successful = false ∧
    (validator_validate default_config oracle0 rd200 (some poor_records) Option.none).is_blocked = false ∧
    (validator_validate default_config oracle0 rd200 (some poor_records) Option.none).issues = [] ∧
    (validator_validate default_config oracle0 rd200 (some poor_records) Option.none).warnings = [] := by
  obtain ⟨hv, hi⟩ := quality_validation_poor
  simp [validator_validate, blocking_eval_200, bot_eval_200, hv, hi]

/-- C1: for every input, the orchestrator's `validate_scraping_result`
returns a `ValidationResult` (the embedded `manager_validate` is a total
function of the task and of the explicit fault parameters standing for
collaborator exceptions, so no exception propagates); on the
internal-failure paths — an exception reaching the outer handler, or an
exception inside `_perform_validation` — the returned verdict has
`is_successful = false`, `confidence_score = 0`, and metadata containing
`error = true`. -/
theorem orchestrator_error_paths (cfg : ValidatorConfig) (o : Oracle)
    (cacheEnabled : Bool) (cacheLookup : Option ValidationResult)
    (co : Except String ResponseData) (pf : Option String)
    (task : ValidationTask) (now : ℚ) :
    (∀ e, (manager_validate cfg o (some e) cacheEnabled cacheLookup co pf task now).is_successful = false ∧
      (manager_validate cfg o (some e) cacheEnabled cacheLookup co pf task now).confidence_score = 0 ∧
      metaLookup "error" (manager_validate cfg o (some e) cacheEnabled cacheLookup co pf task now).metadata
        = some (MetaValue.b true)) ∧
    ((if cacheEnabled then cacheLookup else Option.none) = Option.none →
      ∀ e, (manager_validate cfg o Option.none cacheEnabled cacheLookup co (some e) task now).is_successful = false ∧
      (manager_validate cfg o Option.none cacheEnabled cacheLookup co (some e) task now).confidence_score = 0 ∧
      metaLookup "error" (manager_validate cfg o Option.none cacheEnabled cacheLookup co (some e) task now).metadata
        = some (MetaValue.b true)) := by
  constructor
  · intro e
    refine ⟨rfl, rfl, ?_⟩
    simp [manager_validate, create_error_result, metaLookup]
  · intro hc e
    simp only [manager_validate, hc]
    cases co <;> simp [create_error_result, metaLookup]

/-- C1 witness: both failure paths at concrete inputs. -/
theorem orchestrator_error_paths_witness :
    (manager_validate default_config oracle0 (some "boom") true Option.none
      (Except.error "net down") Option.none mtask 0).is_successful = false ∧
    metaLookup "error" (manager_validate default_config oracle0 Option.none true Option.none
      (Except.error "net down") (some "crash") mtask 0).metadata = some (MetaValue.b true) := by
  constructor
  · exact ((orchestrator_error_paths default_config oracle0 true Option.none
      (Except.error "net down") Option.none mtask 0).1 "boom").1
  · exact (((orchestrator_error_paths default_config oracle0 true Option.none
      (Except.error "net down") (some "crash") mtask 0).2 rfl) "crash").2.2

/-- C2: whenever the classifier's verdict has `is_blocked = true`, the
data-quality step was skipped — the metadata holds no `data_stats` entry —
and `is_successful = false`. -/
theorem blocked_skips_quality (cfg : ValidatorConfig) (o : Oracle) (rd : ResponseData)
    (sd : Option (List ExtractedRecord)) (csv : Option String)
    (h : (validator_validate cfg o rd sd csv).is_blocked = true) :
    metaLookup "data_stats" (validator_validate cfg o rd sd csv).metadata = Option.none ∧
    (validator_validate cfg o rd sd csv).is_successful = false := by
  have hb : (analyze_blocking o rd).is_blocked = true := by
    rw [← validator_is_blocked_eq cfg o rd sd csv]; exact h
  obtain ⟨hm, hs⟩ := validator_blocked_fields cfg o rd sd csv hb
  refine ⟨?_, hs⟩
  rw [hm]
  by_cases hbd : (detect_bot_system o rd).system ≠ BotDetectionSystem.none
  · simp [hbd, metaLookup_metaSet, metaLookup]
  · simp [hbd, metaLookup]

/-- C2 witness: a rate-limited (HTTP 429) response is blocked and carries
no data statistics. -/
theorem blocked_skips_quality_witness :
    metaLookup "data_stats"
      (validator_validate default_config oracle0 rd429 (some poor_records) Option.none).metadata
      = Option.none ∧
    (validator_validate default_config oracle0 rd429 (some poor_records) Option.none).is_successful = false :=
  blocked_skips_quality default_config oracle0 rd429 (some poor_records) Option.none
    (by rw [validator_is_blocked_eq]; decide)

/-- C3: any response with status 403 is classified as blocked with block
type access-denied and confidence at least 0.8 (actual 0.9), and the
status-table match short-circuits: the analysis carries exactly the one
status issue, with no content, URL or header contribution. -/
theorem blocking_403_short_circuit (o : Oracle) (rd : ResponseData)
    (h : rd.status_code = 403) :
    (analyze_blocking o rd).is_blocked = true ∧
    (analyze_blocking o rd).block_type = BlockType.access_denied ∧
    (4/5 : ℚ) ≤ (analyze_blocking o rd).confidence ∧
    (analyze_blocking o rd).issues = ["HTTP 403: Access forbidden"] := by
  have hb : blocking_status_codes rd.status_code =
      some ("Access forbidden", BlockType.access_denied, 9/10) := by rw [h]; rfl
  have hred : analyze_blocking o rd =
      { is_blocked := true
      , block_type := BlockType.access_denied
      , issues := ["HTTP " ++ toString rd.status_code ++ ": " ++ "Access forbidden"]
      , confidence := 9/10 } := by
    unfold analyze_blocking
    rw [hb]
  rw [hred, h]
  refine ⟨rfl, rfl, by norm_num, by decide⟩

/-- C3 witness: concrete 403 response with empty body. -/
theorem blocking_403_short_circuit_witness :
    (analyze_blocking oracle0 rd403).is_blocked = true ∧
    (analyze_blocking oracle0 rd403).block_type = BlockType.access_denied ∧
    (4/5 : ℚ) ≤ (analyze_blocking oracle0 rd403).confidence ∧
    (analyze_blocking oracle0 rd403).issues = ["HTTP 403: Access forbidden"] :=
  blocking_403_short_circuit oracle0 rd403 rfl

/-- C4 counterexample: an invalid handle (one without a `status`
attribute) makes the Scrapy collector return the base record with its
default `status_code = 200`, not 0 as the claim states. -/
theorem collector_invalid_handle_counterexample :
    (scrapy_collect collector_cfg ScrapyHandle.invalid Option.none 0).status_code = 200 ∧
    ¬ ((200 : Int) = 0) := ⟨rfl, by decide⟩

/-- C4 amended: normalization never raises (the embedded collector is
total over all handle shapes); on a collector exception or on the
manager-level timeout/exception fallback the record has `status_code = 0`
and empty content; on an invalid handle the collector returns the base
record with `status_code = 200` and empty content; in each case the
record carries only a `collector_type` tag — the failure reason is not
recorded. -/
theorem collector_failure_paths (cfg : CollectorConfig) (url : Option String)
    (now : ℚ) (msg : String) :
    (scrapy_collect cfg (ScrapyHandle.raising msg) url now).status_code = 0 ∧
    (scrapy_collect cfg (ScrapyHandle.raising msg) url now).content = "" ∧
    (scrapy_collect cfg (ScrapyHandle.raising msg) url now).collector_type = "ScrapyResponseCollector" ∧
    (scrapy_collect cfg ScrapyHandle.invalid url now).status_code = 200 ∧
    (scrapy_collect cfg ScrapyHandle.invalid url now).content = "" ∧
    (fallback_response_data url now).status_code = 0 ∧
    (fallback_response_data url now).content = "" ∧
    (fallback_response_data url now).collector_type = "fallback" :=
  ⟨rfl, rfl, rfl, rfl, rfl, rfl, rfl, rfl⟩

theorem cache_lookup_insert (entries : List (CacheKeyData × ℚ × ValidationResult))
    (k : CacheKeyData) (v : ℚ × ValidationResult) :
    cache_lookup k (cache_insert entries k v) = some v := by
  induction entries with
  | nil => simp [cache_insert, cache_lookup]
  | cons e rest ih =>
    by_cases h : e.1 = k <;> simp [cache_insert, cache_lookup, h, ih]

theorem cache_set_lookup (ttl : ℚ) (max_size : Nat) (st : ValidationCacheState)
    (task : ValidationTask) (result : ValidationResult) (t0 : ℚ) :
    cache_lookup (generate_cache_key task)
      (cache_set ttl max_size st task result t0).entries = some (t0, result) := by
  unfold cache_set
  exact cache_lookup_insert _ _ _

/-- C5 counterexample: under the default hybrid strategy, a verdict
stored with a per-entry TTL override of 10 at time 0 is returned by a
`get` at time 20 — more than 10 seconds after the entry's creation.  The
first expired `get` deletes only the memory entry; the next `get` misses
memory and is served from the disk tier, which validates only the
default TTL (300) against the file's age, the override never having been
persisted. -/
theorem cache_ttl_expiry_counterexample :
    (adv_get advcfg
      (adv_get advcfg (adv_set advcfg advcache0 "k" vres (some 10) false 0) "k" 20).2
      "k" 20).1 = some vres ∧
    (10 : ℚ) < 20 - 0 := by
  have h1 : adv_set advcfg advcache0 "k" vres (some 10) false 0 =
      { entries := [("k", { data := vres, timestamp := 0, last_access := 0
                          , size_bytes := 1, ttl_override := some 10 })]
      , access_order := ["k"]
      , persistent := [("k", (0, [0]))] } := by decide
  have hex : adv_is_expired advcfg.default_ttl 20
      ({ data := vres, timestamp := 0, last_access := 0
       , size_bytes := 1, ttl_override := some 10 } : AdvCacheEntry ValidationResult) = true := by
    norm_num [adv_is_expired, advcfg]
  have h2 : adv_get advcfg
      ({ entries := [("k", { data := vres, timestamp := 0, last_access := 0
                           , size_bytes := 1, ttl_override := some 10 })]
       , access_order := ["k"]
       , persistent := [("k", (0, [0]))] } : AdvCache ValidationResult) "k" 20 =
      (Option.none, { entries := [], access_order := [], persistent := [("k", (0, [0]))] }) := by
    simp [adv_get, adv_lookup, hex]
  have h3 : (adv_get advcfg
      ({ entries := [], access_order := [], persistent := [("k", (0, [0]))] } :
        AdvCache ValidationResult) "k" 20).1 = some vres := by
    simp only [adv_get, adv_lookup]
    rw [if_pos ⟨rfl, rfl⟩]
    have hload : load_from_persistent advcfg
        ({ entries := [], access_order := [], persistent := [("k", (0, [0]))] } :
          AdvCache ValidationResult) "k" 20 =
        (some vres, { entries := [], access_order := [], persistent := [("k", (0, [0]))] }) := by
      norm_num [load_from_persistent, plookup, advcfg, deserialize_entry, cres_unpickle,
        (show natStarts compressed_marker [0] = false from by decide)]
    rw [hload]
  rw [h1, congrArg Prod.snd h2, h3]
  exact ⟨rfl, by norm_num⟩

/-- C5 amended: for the orchestrator's `ValidationCache`, after `set` at
time `t0` a `get` more than `ttl` seconds later misses, a `get` less
than `ttl` seconds later hits with the stored verdict, and no `get` ever
returns an entry past the TTL.  For the `AdvancedCache`, any value
returned by `get` is either a memory entry within its effective TTL
(per-entry override, else default), or — under the hybrid strategy, on a
key absent from memory — a disk entry whose file age is within the
DEFAULT TTL only: the per-entry override is not persisted, so a disk hit
can be served past a shorter override (see the counterexample). -/
theorem cache_ttl_expiry (ttl : ℚ) (max_size : Nat) (st : ValidationCacheState)
    (task : ValidationTask) (result : ValidationResult) (t0 t1 : ℚ) :
    (ttl < t1 - t0 →
      (cache_get ttl (cache_set ttl max_size st task result t0) task t1).1 = Option.none) ∧
    (t1 - t0 < ttl →
      (cache_get ttl (cache_set ttl max_size st task result t0) task t1).1 = some result) ∧
    (∀ (st2 : ValidationCacheState) (now : ℚ) (r : ValidationResult),
      (cache_get ttl st2 task now).1 = some r →
      ∃ ts, cache_lookup (generate_cache_key task) st2.entries = some (ts, r) ∧
        now - ts ≤ ttl) ∧
    (∀ {α : Type} (cfg : AdvCacheConfig α) (c : AdvCache α) (k : String) (now : ℚ) (x : α),
      (adv_get cfg c k now).1 = some x →
      (∃ e2, adv_lookup k c.entries = some e2 ∧ e2.data = x ∧
        now - e2.timestamp ≤ e2.ttl_override.getD cfg.default_ttl) ∨
      (adv_lookup k c.entries = Option.none ∧
        cfg.strategy = CacheStrategy.hybrid ∧ cfg.has_persistent_dir = true ∧
        ∃ mtime bytes, plookup k c.persistent = some (mtime, bytes) ∧
          now - mtime ≤ cfg.default_ttl ∧
          deserialize_entry cfg.unpickle cfg.compressor bytes = some x)) := by
  have hl := cache_set_lookup ttl max_size st task result t0
  refine ⟨?_, ?_, ?_, ?_⟩
  · intro h
    simp only [cache_get]
    rw [hl]
    dsimp only
    rw [if_pos (by linarith : t1 - t0 > ttl)]
  · intro h
    simp only [cache_get]
    rw [hl]
    dsimp only
    rw [if_neg (by linarith : ¬ t1 - t0 > ttl)]
  · intro st2 now r h
    simp only [cache_get] at h
    rcases hcl : cache_lookup (generate_cache_key task) st2.entries with _ | ⟨ts, r0⟩
    · rw [hcl] at h; simp at h
    · rw [hcl] at h
      dsimp only at h
      by_cases hex : now - ts > ttl
      · rw [if_pos hex] at h; simp at h
      · rw [if_neg hex] at h
        have hr : r0 = r := by simpa using h
        subst hr
        exact ⟨ts, rfl, by linarith [not_lt.mp hex]⟩
  · intro α cfg c k now x h
    simp only [adv_get] at h
    rcases hcl : adv_lookup k c.entries with _ | e2
    · rw [hcl] at h
      by_cases hs : cfg.strategy = CacheStrategy.hybrid ∧ cfg.has_persistent_dir = true
      · rw [if_pos hs] at h
        simp only [load_from_persistent] at h
        rw [hs.2] at h
        simp only [Bool.not_true, Bool.false_eq_true, if_false] at h
        rcases hpl : plookup k c.persistent with _ | ⟨mtime, bytes⟩
        · rw [hpl] at h; simp at h
        · rw [hpl] at h
          dsimp only at h
          by_cases hage : now - mtime > cfg.default_ttl
          · rw [if_pos hage] at h; simp at h
          · rw [if_neg hage] at h
            rcases hdes : deserialize_entry cfg.unpickle cfg.compressor bytes with _ | d
            · rw [hdes] at h; simp at h
            · rw [hdes] at h
              have hdx : d = x := by simpa using h
              subst hdx
              exact Or.inr ⟨rfl, hs.1, hs.2, mtime, bytes, rfl,
                by linarith [not_lt.mp hage], hdes⟩
      · rw [if_neg hs] at h; simp at h
    · rw [hcl] at h
      dsimp only at h
      by_cases hex : adv_is_expired cfg.default_ttl now e2 = true
      · rw [if_pos hex] at h; simp at h
      · rw [if_neg hex] at h
        have hdx : e2.data = x := by simpa using h
        refine Or.inl ⟨e2, rfl, hdx, ?_⟩
        by_cases hgt : now - e2.timestamp > e2.ttl_override.getD cfg.default_ttl
        · exact absurd (by simp [adv_is_expired, hgt]) hex
        · linarith [not_lt.mp hgt]

/-- C5 witness: with TTL 300 and an entry created at time 0, the cache
misses at time 301 and hits at time 10. -/
theorem cache_ttl_expiry_witness :
    (cache_get 300 (cache_set 300 1000 ⟨[]⟩ mtask vres 0) mtask 301).1 = Option.none ∧
    (cache_get 300 (cache_set 300 1000 ⟨[]⟩ mtask vres 0) mtask 10).1 = some vres := by
  constructor
  · exact (cache_ttl_expiry 300 1000 ⟨[]⟩ mtask vres 0 301).1 (by norm_num)
  · exact (cache_ttl_expiry 300 1000 ⟨[]⟩ mtask vres 0 10).2.1 (by norm_num)

theorem natStarts_append_self (xs ys : List Nat) : natStarts xs (xs ++ ys) = true := by
  induction xs with
  | nil => rfl
  | cons a rest ih => simp [natStarts, ih]

/-- C6: `set` followed immediately by `get` (with a nonnegative TTL)
returns the stored verdict; and the serialize/deserialize pair of the
advanced cache is a round trip — including when the entry is compressed
for storage — whenever the pickler round-trips, the codec inverts itself,
and the pickled form does not begin with the compression marker (true of
real pickle output). -/
theorem cache_round_trip (ttl : ℚ) (max_size : Nat) (st : ValidationCacheState)
    (task : ValidationTask) (result : ValidationResult) (t : ℚ)
    (httl : 0 ≤ ttl) :
    (cache_get ttl (cache_set ttl max_size st task result t) task t).1 = some result ∧
    (∀ {α : Type} (pickle : α → List Nat) (unpickle : List Nat → Option α)
      (compressor : Option Compressor) (enabled : Bool) (threshold : Nat) (x : α),
      unpickle (pickle x) = some x →
      (∀ c, compressor = some c → c.decomp (c.comp (pickle x)) = pickle x) →
      natStarts compressed_marker (pickle x) = false →
      deserialize_entry unpickle compressor
        (serialize_entry pickle compressor enabled threshold x) = some x) := by
  constructor
  · simp only [cache_get]
    rw [cache_set_lookup ttl max_size st task result t]
    dsimp only
    rw [if_neg (by linarith : ¬ t - t > ttl)]
  · intro α pickle unpickle compressor enabled threshold x h1 h2 h3
    cases compressor with
    | none =>
      simp only [serialize_entry, deserialize_entry]
      rw [h3]
      simpa using h1
    | some c =>
      simp only [serialize_entry, deserialize_entry]
      rcases hb : (enabled && decide (List.length (pickle x) > threshold)) with _ | _
      · simp only [hb]
        rw [h3]
        simpa using h1
      · simp only [hb]
        rw [natStarts_append_self]
        simp only [if_true]
        rw [List.drop_left]
        rw [h2 c rfl]
        exact h1

/-- C6 witness: round trip at a concrete task/verdict, and a compressed
serialize/deserialize round trip with a concrete codec. -/
theorem cache_round_trip_witness :
    (cache_get 300 (cache_set 300 1000 ⟨[]⟩ mtask vres 5) mtask 5).1 = some vres ∧
    deserialize_entry wunpickle (some wcompressor)
      (serialize_entry wpickle (some wcompressor) true 0 true) = some true := by
  constructor
  · exact (cache_round_trip 300 1000 ⟨[]⟩ mtask vres 5 (by norm_num)).1
  · exact (cache_round_trip 300 1000 ⟨[]⟩ mtask vres 5 (by norm_num)).2
      wpickle wunpickle (some wcompressor) true 0 true (by decide)
      (fun c hc => by cases hc; rfl) (by decide)

theorem head?_take (l : List ExtractedRecord) (n : Nat) (hn : n ≠ 0) :
    (l.take n).head? = l.head? := by
  cases l with
  | nil => simp
  | cons a rest =>
    cases n with
    | zero => exact absurd rfl hn
    | succ m => simp

theorem isEmpty_of_length_eq (l1 l2 : List ExtractedRecord)
    (h : l1.length = l2.length) : l1.isEmpty = l2.isEmpty := by
  cases l1 <;> cases l2 <;> simp_all

/-- C7: the cache fingerprint is a function of only the scraper type, the
URL, the record count and the first-five-record sample — tasks agreeing
on those yield equal keys regardless of task id, csv path, response
handle, or records beyond the sample — and tasks with different scraper
types yield different keys.  The same holds of the advanced cache's key
(whose sample is the first three records plus the first record's field
names, both determined by the first-five sample and the count). -/
theorem cache_key_determinism :
    (∀ t1 t2 : ValidationTask,
      t1.scraper_type = t2.scraper_type → t1.url = t2.url →
      (t1.scraped_data.getD []).length = (t2.scraped_data.getD []).length →
      (t1.scraped_data.getD []).take 5 = (t2.scraped_data.getD []).take 5 →
      generate_cache_key t1 = generate_cache_key t2) ∧
    (∀ t1 t2 : ValidationTask, t1.scraper_type ≠ t2.scraper_type →
      generate_cache_key t1 ≠ generate_cache_key t2) ∧
    (∀ t1 t2 : ValidationTask,
      t1.scraper_type = t2.scraper_type → t1.url = t2.url →
      (t1.scraped_data.getD []).length = (t2.scraped_data.getD []).length →
      (t1.scraped_data.getD []).take 5 = (t2.scraped_data.getD []).take 5 →
      generate_adv_cache_key t1.scraper_type t1.url t1.scraped_data =
        generate_adv_cache_key t2.scraper_type t2.url t2.scraped_data) ∧
    (∀ t1 t2 : ValidationTask, t1.scraper_type ≠ t2.scraper_type →
      generate_adv_cache_key t1.scraper_type t1.url t1.scraped_data ≠
        generate_adv_cache_key t2.scraper_type t2.url t2.scraped_data) := by
  refine ⟨?_, ?_, ?_, ?_⟩
  · intro t1 t2 hs hu hlen htake
    unfold generate_cache_key
    rw [hs, hu, hlen, htake, isEmpty_of_length_eq _ _ hlen]
  · intro t1 t2 hs hk
    exact hs (congrArg CacheKeyData.scraper_type hk)
  · intro t1 t2 hs hu hlen htake
    have h3 : (t1.scraped_data.getD []).take 3 = (t2.scraped_data.getD []).take 3 := by
      have := congrArg (List.take 3) htake
      simpa [List.take_take] using this
    have hh : (t1.scraped_data.getD []).head? = (t2.scraped_data.getD []).head? := by
      rw [← head?_take (t1.scraped_data.getD []) 5 (by norm_num),
        ← head?_take (t2.scraped_data.getD []) 5 (by norm_num), htake]
    simp only [generate_adv_cache_key, generate_data_signature]
    rw [hs, hu, isEmpty_of_length_eq _ _ hlen, hlen, h3, hh]
  · intro t1 t2 hs hk
    exact hs (congrArg AdvKeyData.scraper_type hk)

/-- C7 witness: two tasks agreeing on the fingerprint components (but
differing in task id, csv path and response handle) share a key, while a
task differing only in scraper type has a different key. -/
theorem cache_key_determinism_witness :
    generate_cache_key mtask = generate_cache_key mtask_b ∧
    generate_cache_key mtask ≠ generate_cache_key mtask_c := by
  constructor
  · exact cache_key_determinism.1 mtask mtask_b rfl rfl rfl rfl
  · exact cache_key_determinism.2.1 mtask mtask_c (by decide)

/-- C8 counterexample: on the poor-data records with a status-200
response and the default configuration, the verdict is unsuccessful but
the issues list is empty — the claim's required non-empty issues list
fails (title completeness is 0.5, so no missing-required-field issue
fires, and a below-threshold score produces no issue at all). -/
theorem poor_data_counterexample :
    ¬ ((validator_validate default_config oracle0 rd200 (some poor_records) Option.none).is_successful = false ∧
       (validator_validate default_config oracle0 rd200 (some poor_records) Option.none).issues ≠ []) := by
  intro hcl
  exact hcl.2 poor_verdict_eval.2.2.1

/-- C8 amended: on the poor-data records with a status-200 response and
the default configuration the verdict has `is_successful = false` and
`is_blocked = false`, but both the issues and the warnings lists are
empty: the quality shortfall adds only warnings inside scoring, and
warnings are attached to the verdict only when it is successful. -/
theorem poor_data_amended :
    (validator_validate default_config oracle0 rd200 (some poor_records) Option.none).is_successful = false ∧
    (validator_validate default_config oracle0 rd200 (some poor_records) Option.none).is_blocked = false ∧
    (validator_validate default_config oracle0 rd200 (some poor_records) Option.none).issues = [] ∧
    (validator_validate default_config oracle0 rd200 (some poor_records) Option.none).warnings = [] :=
  poor_verdict_eval

/-- C9 counterexample: a `PermissionError` whose message contains the
keyword "timeout" is classified Network/Medium — not Critical — so the
fatal-type severity is not independent of the message text. -/
theorem classify_error_counterexample :
    classify_error "timeout" "PermissionError" Option.none =
      (ErrorCategory.network, ErrorSeverity.medium) ∧
    (ErrorCategory.network, ErrorSeverity.medium) ≠
      (ErrorCategory.system, ErrorSeverity.critical) :=
  ⟨by decide, by decide⟩

/-- C9 amended: when the message matches none of the category word-lists
and the component is not validation-related, `classify_error` returns
Category=System with Severity=Critical for the process-fatal exception
types (SystemError, OSError, PermissionError) and Severity=Medium for
all other types; the keyword and component branches take precedence over
the fatal-type branch. -/
theorem classify_error_default_and_fatal (message error_type : String)
    (component : Option String)
    (h1 : matches_no_category message = true)
    (h2 : is_validator_component component = false) :
    classify_error message error_type component =
      (ErrorCategory.system,
        if fatal_error_types.contains error_type then ErrorSeverity.critical
        else ErrorSeverity.medium) := by
  unfold matches_no_category at h1
  simp only [Bool.and_eq_true, Bool.not_eq_true'] at h1
  obtain ⟨⟨⟨⟨hn, hp⟩, hr⟩, hc⟩, hi⟩ := h1
  unfold classify_error
  rw [hn, hp, hr, hc, hi, h2]
  by_cases hf : error_type ∈ fatal_error_types <;> simp [hf]

/-- C9 witness: a keyword-free message is System/Medium for an ordinary
exception type and System/Critical for OSError. -/
theorem classify_error_default_and_fatal_witness :
    classify_error "boom" "ValueError" Option.none = (ErrorCategory.system, ErrorSeverity.medium) ∧
    classify_error "boom" "OSError" Option.none = (ErrorCategory.system, ErrorSeverity.critical) := by
  constructor
  · have h := classify_error_default_and_fatal "boom" "ValueError" Option.none
      (by decide) (by decide)
    rw [show fatal_error_types.contains "ValueError" = false from by decide] at h
    simpa using h
  · have h := classify_error_default_and_fatal "boom" "OSError" Option.none
      (by decide) (by decide)
    rw [show fatal_error_types.contains "OSError" = true from by decide] at h
    simpa using h

/-- C10 counterexample: on a single-record list the consistency sub-score
is 1, not the claimed 0.8. -/
theorem consistency_counterexample :
    analyze_data_consistency oracle0 [[("title", PyVal.str "x")]] = 1 ∧
    ¬ ((1 : ℚ) = 4/5) := ⟨rfl, by norm_num⟩

/-- C10 amended: the consistency sub-score equals 1 whenever the record
list has fewer than 2 records, and equals 4/5 when there are at least 2
records but no comparable field exists (no truthy image-URL value and at
most one truthy price value). -/
theorem consistency_defaults (o : Oracle) (data : List ExtractedRecord) :
    (data.length < 2 → analyze_data_consistency o data = 1) ∧
    (2 ≤ data.length → consistency_image_urls data = [] →
      (consistency_prices data).length ≤ 1 → analyze_data_consistency o data = 4/5) := by
  constructor
  · intro h
    unfold analyze_data_consistency
    rw [if_pos h]
  · intro h2 hi hp
    have hnp : ¬ (consistency_prices data).length > 1 := by omega
    simp only [analyze_data_consistency]
    rw [if_neg (by omega : ¬ data.length < 2), hi]
    simp [hnp]

/-- C10 witness: two records with neither image URLs nor truthy prices
score 4/5. -/
theorem consistency_defaults_witness :
    analyze_data_consistency oracle0
      [[("title", PyVal.str "a")], [("title", PyVal.str "b")]] = 4/5 :=
  (consistency_defaults oracle0
    [[("title", PyVal.str "a")], [("title", PyVal.str "b")]]).2
    (by decide) (by decide) (by decide)
